import Mathlib

/-!
Verification development for the `betteryourself` service worker (`src/sw.js`).

The source registers two near-duplicate sets of lifecycle handlers, named
"Policy A" (network-first with cache backstop, first half of the file) and
"Policy B" (cache-first, offline-durable, second half).  Following the spec's
design note, the two are modelled as two alternative deployment
configurations, never as simultaneously active logic.

The Cache API is modelled shallowly: a cache storage is an ordered list of
named caches, each an ordered list of (url, response) entries.  Network access
is a function from URL to `Except` (rejection message or response).  Response
bodies are values, so `clone` is the identity on the record; the single-read
stream constraint of the platform is represented by the fact that the stored
copy and the returned response are separate record values with equal bodies.
-/

namespace SW

/-- A captured HTTP response: status, response type (`"basic"`, `"opaque"`,
`"default"`, ...), body snapshot and the Content-Type header. -/
structure Response where
  status : Nat
  type : String
  body : String
  contentType : String
deriving Repr, DecidableEq

/-- `Response.clone()`: produces an independent, equal copy (bodies are values
in this model). -/
def Response.clone (r : Response) : Response := r

/-- A fetch-event request: method, absolute URL, and destination
(`"document"` for navigations). -/
structure Request where
  method : String
  url : String
  destination : String
deriving Repr, DecidableEq

/-- JS `url.startsWith(origin)`: true exactly when `origin` is a literal
character prefix of `url` (computed over the character lists so that it
evaluates on concrete inputs). -/
def urlStartsWith (url origin : String) : Bool :=
  origin.data.isPrefixOf url.data

/-- A single named cache: ordered (url, response) entries. -/
abbrev CacheEntries := List (String × Response)

/-- The cache storage: ordered list of named caches. -/
abbrev CacheStorage := List (String × CacheEntries)

/-- `cache.match(url)` within one cache: first entry with the given URL. -/
def cacheMatchIn (entries : CacheEntries) (url : String) : Option Response :=
  (entries.find? (fun e => e.1 == url)).map (·.2)

/-- `caches.match(url)`: search every named cache in storage order and return
the first hit, regardless of which cache holds it. -/
def cachesMatch : CacheStorage → String → Option Response
  | [], _ => none
  | c :: rest, url =>
    match cacheMatchIn c.2 url with
    | some r => some r
    | none => cachesMatch rest url

/-- `cache.put(url, r)` within one cache: replace an existing entry for the
URL, or append. -/
def cachePutEntries : CacheEntries → String → Response → CacheEntries
  | [], url, r => [(url, r)]
  | e :: rest, url, r =>
    if e.1 == url then (url, r) :: rest else e :: cachePutEntries rest url r

/-- `caches.open(name)` followed by `cache.put(url, r)`: create the named
cache if absent, then put. -/
def cacheOpenPut : CacheStorage → String → String → Response → CacheStorage
  | [], name, url, r => [(name, [(url, r)])]
  | c :: rest, name, url, r =>
    if c.1 == name then (c.1, cachePutEntries c.2 url r) :: rest
    else c :: cacheOpenPut rest name url r

/-- `caches.open(name)` alone: create the named (empty) cache if absent. -/
def cachesOpen (store : CacheStorage) (name : String) : CacheStorage :=
  if store.any (fun c => c.1 == name) then store else store ++ [(name, [])]

/-- `caches.delete(name)`: remove the named cache; a no-op if absent. -/
def cachesDelete (store : CacheStorage) (name : String) : CacheStorage :=
  store.filter (fun c => c.1 != name)

/-- `caches.keys()`: the names of the existing caches, in storage order. -/
def cachesKeys (store : CacheStorage) : List String := store.map (·.1)

/-! ## Module-scoped constants (both halves of `sw.js`) -/

/-- `CACHE_NAME` of the Policy A half. -/
def CACHE_NAME_A : String := "better-yourself-v1.0.0"

/-- `STATIC_CACHE` (same value in both halves). -/
def STATIC_CACHE : String := "better-yourself-static-v1"

/-- `DYNAMIC_CACHE` (Policy A half only). -/
def DYNAMIC_CACHE : String := "better-yourself-dynamic-v1"

/-- `CACHE_NAME` of the Policy B half. -/
def CACHE_NAME_B : String := "better-yourself-offline-v1.0.0"

/-- `STATIC_FILES`: the asset manifest (same value in both halves). -/
def STATIC_FILES : List String := ["./", "./index.html", "./manifest.json"]

/-! ## Install phase -/

/-- Fetch every manifest URL; reject on the first network error or non-ok
(outside 200..299) status, as `cache.addAll` does. -/
def fetchAll (net : String → Except String Response) :
    List String → Except String (List (String × Response))
  | [] => .ok []
  | u :: rest =>
    match net u with
    | .error e => .error e
    | .ok r =>
      if r.status < 200 ∨ 300 ≤ r.status then .error "addAll: non-ok response"
      else (fetchAll net rest).map (fun ps => (u, r) :: ps)

/-- `cache.addAll(urls)`: all fetches must succeed; the batch of puts is
committed atomically only then. -/
def cacheAddAll (store : CacheStorage) (name : String)
    (net : String → Except String Response) (urls : List String) :
    Except String CacheStorage :=
  match fetchAll net urls with
  | .error e => .error e
  | .ok pairs => .ok (pairs.foldl (fun s p => cacheOpenPut s name p.1 p.2) store)

/-- Outcome of one install event's `waitUntil` promise. -/
structure InstallResult where
  store : CacheStorage
  promiseRejected : Bool
  skipWaitingCalled : Bool
deriving Repr, DecidableEq

/-- Policy A install listener (`sw.js` lines 16–33):
`caches.open(STATIC_CACHE).then(addAll).then(skipWaiting).catch(log)`.
The trailing `.catch` swallows any `addAll` rejection, so the `waitUntil`
promise always resolves. -/
def installA (store : CacheStorage) (net : String → Except String Response) :
    InstallResult :=
  let s1 := cachesOpen store STATIC_CACHE
  match cacheAddAll s1 STATIC_CACHE net STATIC_FILES with
  | .ok s2 => { store := s2, promiseRejected := false, skipWaitingCalled := true }
  | .error _ => { store := s1, promiseRejected := false, skipWaitingCalled := false }

/-- Policy B first install listener (`sw.js` lines 207–224): same shape as
`installA`, also ending in a swallowing `.catch`. -/
def installB1 (store : CacheStorage) (net : String → Except String Response) :
    InstallResult :=
  let s1 := cachesOpen store STATIC_CACHE
  match cacheAddAll s1 STATIC_CACHE net STATIC_FILES with
  | .ok s2 => { store := s2, promiseRejected := false, skipWaitingCalled := true }
  | .error _ => { store := s1, promiseRejected := false, skipWaitingCalled := false }

/-- Policy B second install listener (`sw.js` lines 395–407): no `.catch`,
so an `addAll` failure rejects the `waitUntil` promise and propagates to the
host. -/
def installB2 (store : CacheStorage) (net : String → Except String Response) :
    InstallResult :=
  let s1 := cachesOpen store STATIC_CACHE
  match cacheAddAll s1 STATIC_CACHE net STATIC_FILES with
  | .ok s2 => { store := s2, promiseRejected := false, skipWaitingCalled := true }
  | .error _ => { store := s1, promiseRejected := true, skipWaitingCalled := false }

/-! ## Activate phase -/

/-- Policy A activate listener (`sw.js` lines 36–57): enumerate `caches.keys()`
and delete every cache whose name is neither `STATIC_CACHE` nor
`DYNAMIC_CACHE`. -/
def activateA (store : CacheStorage) : CacheStorage :=
  (cachesKeys store).foldl
    (fun s cacheName =>
      if cacheName != STATIC_CACHE && cacheName != DYNAMIC_CACHE then
        cachesDelete s cacheName
      else s)
    store

/-- Policy B activate listener (`sw.js` lines 227–248): delete every cache
whose name is not `STATIC_CACHE`. -/
def activateB (store : CacheStorage) : CacheStorage :=
  (cachesKeys store).foldl
    (fun s cacheName =>
      if cacheName != STATIC_CACHE then cachesDelete s cacheName else s)
    store

/-! ## Fetch routing -/

/-- How one fetch interception concludes. `passThrough` means the handler
returned before calling `event.respondWith`; `respondedNone` means the
`respondWith` promise resolved with `undefined` (no `Response`); `errored`
means the promise rejected with the given error. -/
inductive FetchOutcome where
  | passThrough
  | responded (r : Response)
  | respondedNone
  | errored (e : String)
deriving Repr, DecidableEq

/-- Observable result of one fetch interception: the outcome, the cache
storage afterwards, the number of network fetches performed and the number of
store writes attempted. -/
structure FetchResult where
  outcome : FetchOutcome
  store : CacheStorage
  networkCalls : Nat
  storeWrites : Nat
deriving Repr, DecidableEq

/-- The literal offline fallback markup embedded in the Policy B fetch
listener (`sw.js` lines 306–331). -/
def offlineFallbackHtml : String :=
"<!DOCTYPE html>
<html>
<head>
    <title>Better Yourself - Offline</title>
    <meta name=\"viewport\" content=\"width=device-width, initial-scale=1.0\">
    <style>
        body \x7b font-family: Arial, sans-serif; text-align: center; padding: 50px; background: #f5f5f5; \x7d
        .container \x7b max-width: 400px; margin: 0 auto; padding: 40px; background: white; border-radius: 20px; box-shadow: 0 10px 30px rgba(0,0,0,0.1); \x7d
        .icon \x7b font-size: 4rem; margin-bottom: 20px; \x7d
        h1 \x7b color: #333; margin-bottom: 20px; \x7d
        p \x7b color: #666; line-height: 1.6; \x7d
        button \x7b background: linear-gradient(135deg, #667eea, #764ba2); color: white; border: none; padding: 12px 24px; border-radius: 8px; cursor: pointer; margin-top: 20px; \x7d
    </style>
</head>
<body>
    <div class=\"container\">
        <div class=\"icon\">🌟</div>
        <h1>Better Yourself</h1>
        <p>You\x27re currently offline, but your productivity app is ready to work!</p>
        <p>All your data is stored locally and will sync when you\x27re back online.</p>
        <button onclick=\"window.location.reload()\">Launch App</button>
    </div>
</body>
</html>"

/-- `new Response(offlineFallbackHtml, \x7bheaders: \x7b'Content-Type':
'text/html'\x7d\x7d)`: a synthesized response, default status 200, response
type `"default"`. -/
def offlineFallbackResponse : Response :=
  { status := 200
    type := "default"
    body := offlineFallbackHtml
    contentType := "text/html" }

/-- Policy A fetch listener (`sw.js` lines 60–116), network branch included.
`origin` is `self.location.origin`; `net` is the platform `fetch`;
`putFails` abstracts whether the fire-and-forget background cache write
fails (its rejection is caught and logged inside the listener and never
reaches the `respondWith` promise). Guards: non-GET and URLs not starting
with the origin string are passed through. Cache hit: returned with no
network call. Cache miss: network fetch; a 200 `"basic"` response is cloned
and the clone written to `DYNAMIC_CACHE` while the original is returned. On
network failure, a `"document"` request falls back to
`caches.match('./index.html')` (which may resolve with `undefined`); other
requests re-throw the error. -/
def handleFetchA (origin : String) (store : CacheStorage)
    (net : String → Except String Response) (putFails : Bool) (req : Request) :
    FetchResult :=
  if req.method ≠ "GET" then ⟨.passThrough, store, 0, 0⟩
  else if urlStartsWith req.url origin = false then ⟨.passThrough, store, 0, 0⟩
  else
    match cachesMatch store req.url with
    | some cachedResponse => ⟨.responded cachedResponse, store, 0, 0⟩
    | none =>
      match net req.url with
      | .ok networkResponse =>
        if networkResponse.status ≠ 200 ∨ networkResponse.type ≠ "basic" then
          ⟨.responded networkResponse, store, 1, 0⟩
        else
          let responseToCache := networkResponse.clone
          let store' :=
            if putFails then store
            else cacheOpenPut store DYNAMIC_CACHE req.url responseToCache
          ⟨.responded networkResponse, store', 1, 1⟩
      | .error e =>
        if req.destination = "document" then
          match cachesMatch store "./index.html" with
          | some r => ⟨.responded r, store, 1, 0⟩
          | none => ⟨.respondedNone, store, 1, 0⟩
        else ⟨.errored e, store, 1, 0⟩

/-- Policy B fetch listener (`sw.js` lines 251–342). Identical guards and
cache-hit handling; a cacheable network response is written to
`STATIC_CACHE`; on network failure a `"document"` request gets the cached
`'./index.html'` if present and otherwise the synthesized offline page, and
other requests re-throw the error. -/
def handleFetchB (origin : String) (store : CacheStorage)
    (net : String → Except String Response) (putFails : Bool) (req : Request) :
    FetchResult :=
  if req.method ≠ "GET" then ⟨.passThrough, store, 0, 0⟩
  else if urlStartsWith req.url origin = false then ⟨.passThrough, store, 0, 0⟩
  else
    match cachesMatch store req.url with
    | some cachedResponse => ⟨.responded cachedResponse, store, 0, 0⟩
    | none =>
      match net req.url with
      | .ok networkResponse =>
        if networkResponse.status ≠ 200 ∨ networkResponse.type ≠ "basic" then
          ⟨.responded networkResponse, store, 1, 0⟩
        else
          let responseToCache := networkResponse.clone
          let store' :=
            if putFails then store
            else cacheOpenPut store STATIC_CACHE req.url responseToCache
          ⟨.responded networkResponse, store', 1, 1⟩
      | .error e =>
        if req.destination = "document" then
          match cachesMatch store "./index.html" with
          | some r => ⟨.responded r, store, 1, 0⟩
          | none => ⟨.responded offlineFallbackResponse, store, 1, 0⟩
        else ⟨.errored e, store, 1, 0⟩

/-! ## Message channel -/

/-- A field value in a `postMessage` reply object. -/
inductive MsgValue where
  | str (s : String)
  | bool (b : Bool)
deriving Repr, DecidableEq

/-- Observable result of one message event: whether `skipWaiting()` was
called, and the object posted on `event.ports[0]` (if any). -/
structure MessageResult where
  skipWaitingCalled : Bool
  reply : Option (List (String × MsgValue))
deriving Repr, DecidableEq

/-- Policy A message listener (`sw.js` lines 162–172): `SKIP_WAITING` calls
`skipWaiting()`; `GET_VERSION` replies with an object holding only the
`version` field; no other message type gets a reply. -/
def messageHandlerA (msgType : String) : MessageResult :=
  { skipWaitingCalled := msgType == "SKIP_WAITING"
    reply :=
      if msgType == "GET_VERSION" then some [("version", .str CACHE_NAME_A)]
      else none }

/-- Policy B message listener (`sw.js` lines 367–392): `GET_VERSION` replies
with version, offline and mode; `CACHE_STATUS` replies with whether
`caches.match('./index.html')` hit, ready and mode. -/
def messageHandlerB (store : CacheStorage) (msgType : String) : MessageResult :=
  { skipWaitingCalled := msgType == "SKIP_WAITING"
    reply :=
      if msgType == "GET_VERSION" then
        some [("version", .str CACHE_NAME_B), ("offline", .bool true),
              ("mode", .str "offline-first")]
      else if msgType == "CACHE_STATUS" then
        some [("cached", .bool (cachesMatch store "./index.html").isSome),
              ("ready", .bool true), ("mode", .str "offline")]
      else none }

/-- Characters of a URL up to (excluding) the `k+1`-th slash: with `k = 2`
this keeps `scheme://host[:port]` of an absolute URL. -/
def takeToSlash : Nat → List Char → List Char
  | _, [] => []
  | k, c :: rest =>
    if c = '/' then
      match k with
      | 0 => []
      | k' + 1 => c :: takeToSlash k' rest
    else c :: takeToSlash k rest

/-- Modelled from the spec: the target origin of an absolute URL
`scheme://host[:port]/path...` is its `scheme://host[:port]` part — the text
up to the third `/`.  The source never computes this; its guard is a
string-prefix test on the whole URL, and this definition exists only to
compare the two. -/
def urlOrigin (url : String) : String :=
  ⟨takeToSlash 2 url.data⟩

/-! ## Concrete scenario data -/

/-- A serving origin for concrete scenarios. -/
def sampleOrigin : String := "https://app.example"

/-- A cacheable response for concrete scenarios. -/
def sampleResponse : Response :=
  { status := 200
    type := "basic"
    body := "<html>app</html>"
    contentType := "text/html" }

/-- A network that rejects every fetch with a connection error. -/
def offlineNet : String → Except String Response :=
  fun _ => .error "connection error"

/-- A network that answers every fetch with `sampleResponse`. -/
def okNet : String → Except String Response :=
  fun _ => .ok sampleResponse

/-- A network on which only the manifest entry './index.html' fails. -/
def indexFailsNet : String → Except String Response :=
  fun u =>
    if u == "./index.html" then .error "connection error"
    else .ok sampleResponse

/-- A storage whose static cache holds one application script. -/
def sampleHitStore : CacheStorage :=
  [(STATIC_CACHE, [("https://app.example/app.js", sampleResponse)])]

/-- A storage whose static cache holds only the root document. -/
def rootStore : CacheStorage :=
  [(STATIC_CACHE, [("./index.html", sampleResponse)])]

/-- A storage holding one entry, in a cache whose name is not any current
identifier. -/
def vOldStore : CacheStorage :=
  [("v-old", [("https://app.example/app.js", sampleResponse)])]

/-! ## Helper lemmas -/

/-- A fold of conditional cache deletions over a key list removes exactly the
caches whose name is targeted by the predicate and listed. -/
theorem foldl_delete_eq_filter (p : String → Bool) :
    ∀ (ks : List String) (s : CacheStorage),
      ks.foldl (fun acc n => if p n then cachesDelete acc n else acc) s
        = s.filter (fun c => !(p c.1 && ks.contains c.1))
  | [], s => by simp
  | k :: ks, s => by
      rw [List.foldl_cons]
      cases hp : p k
      · rw [if_neg Bool.false_ne_true]
        rw [foldl_delete_eq_filter p ks s]
        refine List.filter_congr ?_
        intro c _
        cases hck : c.1 == k
        · have hne : c.1 ≠ k := fun h => by simp [h] at hck
          simp [List.contains_cons, hck, hne]
        · have hc : c.1 = k := eq_of_beq hck
          simp [List.contains_cons, hck, hc, hp]
      · rw [if_pos rfl]
        rw [foldl_delete_eq_filter p ks (cachesDelete s k)]
        show (s.filter fun c => c.1 != k).filter _ = _
        rw [List.filter_filter]
        refine List.filter_congr ?_
        intro c _
        cases hck : c.1 == k
        · have hne : c.1 ≠ k := fun h => by simp [h] at hck
          simp [List.contains_cons, hck, hne, bne]
        · have hc : c.1 = k := eq_of_beq hck
          simp [List.contains_cons, hck, bne, hc, hp]

/-- The Policy A activation fold is the filter keeping the two current
cache names. -/
theorem activateA_eq_filter (s : CacheStorage) :
    activateA s
      = s.filter (fun c => c.1 == STATIC_CACHE || c.1 == DYNAMIC_CACHE) := by
  unfold activateA
  rw [foldl_delete_eq_filter]
  refine List.filter_congr ?_
  intro c hc
  have hmem : c.1 ∈ cachesKeys s := List.mem_map_of_mem _ hc
  simp [hmem, bne, Bool.not_and, Bool.not_not]

/-- The Policy B activation fold is the filter keeping the single current
cache name. -/
theorem activateB_eq_filter (s : CacheStorage) :
    activateB s = s.filter (fun c => c.1 == STATIC_CACHE) := by
  unfold activateB
  rw [foldl_delete_eq_filter]
  refine List.filter_congr ?_
  intro c hc
  have hmem : c.1 ∈ cachesKeys s := List.mem_map_of_mem _ hc
  simp [hmem, bne, Bool.not_not]

/-- Putting an entry and then matching its URL in the same cache finds the
fresh entry. -/
theorem cacheMatchIn_putEntries (entries : CacheEntries) (url : String)
    (r : Response) :
    cacheMatchIn (cachePutEntries entries url r) url = some r := by
  induction entries with
  | nil => simp [cachePutEntries, cacheMatchIn, List.find?]
  | cons e rest ih =>
      cases he : e.1 == url
      · simpa [cachePutEntries, cacheMatchIn, List.find?, he] using ih
      · simp [cachePutEntries, cacheMatchIn, List.find?, he]

/-- After `caches.open(name)` + `cache.put(url, r)` on a storage with no
entry for `url`, `caches.match url` returns exactly the fresh entry. -/
theorem cachesMatch_openPut_self (name url : String) (r : Response) :
    ∀ (store : CacheStorage), cachesMatch store url = none →
      cachesMatch (cacheOpenPut store name url r) url = some r
  | [], _ => by
      simp [cacheOpenPut, cachesMatch, cacheMatchIn, List.find?]
  | c :: rest, hmiss => by
      cases h1 : cacheMatchIn c.2 url with
      | some r0 => simp [cachesMatch, h1] at hmiss
      | none =>
          have hrest : cachesMatch rest url = none := by
            simpa [cachesMatch, h1] using hmiss
          cases hn : c.1 == name
          · simp [cacheOpenPut, hn, cachesMatch, h1,
              cachesMatch_openPut_self name url r rest hrest]
          · simp [cacheOpenPut, hn, cachesMatch, cacheMatchIn_putEntries]

/-! ## Claims -/

/-- **C5**: for every state of the generation store, running the activate
step deletes exactly the caches whose name differs from the current
identifiers (`STATIC_CACHE` and, under Policy A's dual-cache variant,
`DYNAMIC_CACHE`), so afterwards only current-named caches remain; and a
second consecutive invocation leaves the storage unchanged (deleting an
already-absent cache is a no-op in the model, as `caches.delete` is). -/
theorem activate_purges_noncurrent_and_is_idempotent (store : CacheStorage) :
    (∀ c, c ∈ activateA store ↔
        c ∈ store ∧ (c.1 = STATIC_CACHE ∨ c.1 = DYNAMIC_CACHE))
    ∧ activateA (activateA store) = activateA store
    ∧ (∀ c, c ∈ activateB store ↔ c ∈ store ∧ c.1 = STATIC_CACHE)
    ∧ activateB (activateB store) = activateB store := by
  refine ⟨fun c => ?_, ?_, fun c => ?_, ?_⟩
  · rw [activateA_eq_filter, List.mem_filter]
    simp [beq_iff_eq]
  · rw [activateA_eq_filter store, activateA_eq_filter, List.filter_filter]
    exact List.filter_congr (fun c _ => by cases c.1 == STATIC_CACHE <;>
      cases c.1 == DYNAMIC_CACHE <;> rfl)
  · rw [activateB_eq_filter, List.mem_filter]
    simp [beq_iff_eq]
  · rw [activateB_eq_filter store, activateB_eq_filter, List.filter_filter]
    exact List.filter_congr (fun c _ => by cases c.1 == STATIC_CACHE <;> rfl)

/-- **C1** (code bug): on a network where the manifest entry './index.html'
cannot be fetched, the Policy A install listener's trailing `.catch` swallows
the `addAll` rejection, so the `waitUntil` promise resolves
(`promiseRejected = false`) and `skipWaiting` is never reached — the install
does not fail as the claim (and the spec's failure condition) states.  The
catch-free second Policy B install registration does reject; and since
`addAll` commits atomically, the created static cache stays empty, so no
partially-populated entry set is left behind. -/
theorem installA_swallows_manifest_fetch_failure :
    (installA [] indexFailsNet).promiseRejected = false
    ∧ (installA [] indexFailsNet).skipWaitingCalled = false
    ∧ (installA [] indexFailsNet).store = [(STATIC_CACHE, [])]
    ∧ (installB1 [] indexFailsNet).promiseRejected = false
    ∧ (installB2 [] indexFailsNet).promiseRejected = true := by
  refine ⟨rfl, rfl, rfl, rfl, rfl⟩

/-- **C2**: under Policy B, every intercepted GET same-origin navigation
request that misses the store and whose network fetch fails, with
'./index.html' also absent from the store, is answered with the synthesized
offline HTML document, served with content type text/html; the network error
is not propagated. -/
theorem policyB_offline_navigation_fallback
    (origin : String) (store : CacheStorage)
    (net : String → Except String Response) (putFails : Bool) (req : Request)
    (e : String)
    (hget : req.method = "GET")
    (hsame : urlStartsWith req.url origin = true)
    (hmiss : cachesMatch store req.url = none)
    (hnet : net req.url = .error e)
    (hnav : req.destination = "document")
    (hroot : cachesMatch store "./index.html" = none) :
    (handleFetchB origin store net putFails req).outcome
        = .responded offlineFallbackResponse
    ∧ offlineFallbackResponse.contentType = "text/html" := by
  refine ⟨?_, rfl⟩
  simp [handleFetchB, hget, hsame, hmiss, hnet, hnav, hroot]

/-- Witness for C2: the offline navigation scenario at an empty store. -/
theorem policyB_offline_navigation_fallback_witness :
    (handleFetchB sampleOrigin [] offlineNet false
        ⟨"GET", "https://app.example/index.html", "document"⟩).outcome
      = .responded offlineFallbackResponse
    ∧ offlineFallbackResponse.contentType = "text/html" :=
  policyB_offline_navigation_fallback sampleOrigin [] offlineNet false
    ⟨"GET", "https://app.example/index.html", "document"⟩ "connection error"
    rfl (by decide) rfl rfl rfl rfl

/-- **C3**: every intercepted GET same-origin request found in the store is
answered with the stored entry, with zero network calls, zero store writes
and an unchanged store — under both policies. -/
theorem cache_hit_returns_stored_no_network
    (origin : String) (store : CacheStorage)
    (net : String → Except String Response) (putFails : Bool) (req : Request)
    (r : Response)
    (hget : req.method = "GET")
    (hsame : urlStartsWith req.url origin = true)
    (hhit : cachesMatch store req.url = some r) :
    handleFetchA origin store net putFails req = ⟨.responded r, store, 0, 0⟩
    ∧ handleFetchB origin store net putFails req = ⟨.responded r, store, 0, 0⟩ := by
  constructor <;> simp [handleFetchA, handleFetchB, hget, hsame, hhit]

/-- Witness for C3: a concrete cache hit with a network that would fail. -/
theorem cache_hit_returns_stored_no_network_witness :
    handleFetchA sampleOrigin sampleHitStore offlineNet false
        ⟨"GET", "https://app.example/app.js", "script"⟩
      = ⟨.responded sampleResponse, sampleHitStore, 0, 0⟩
    ∧ handleFetchB sampleOrigin sampleHitStore offlineNet false
        ⟨"GET", "https://app.example/app.js", "script"⟩
      = ⟨.responded sampleResponse, sampleHitStore, 0, 0⟩ :=
  cache_hit_returns_stored_no_network sampleOrigin sampleHitStore offlineNet
    false ⟨"GET", "https://app.example/app.js", "script"⟩ sampleResponse
    rfl (by decide) (by decide)

/-- **C4**: every intercepted GET same-origin cache miss whose network fetch
succeeds with status 200 and type "basic" yields: the network response
returned unchanged to the caller, one network call, exactly one attempted
store write of a clone (whose failure leaves the outcome untouched), and —
when the write lands — a stored copy retrievable at the request URL whose
body bytes equal the returned response's body.  Both policies, with Policy A
writing to `DYNAMIC_CACHE` and Policy B to `STATIC_CACHE`. -/
theorem cacheable_miss_stored_once_and_returned
    (origin : String) (store : CacheStorage)
    (net : String → Except String Response) (putFails : Bool) (req : Request)
    (nr : Response)
    (hget : req.method = "GET")
    (hsame : urlStartsWith req.url origin = true)
    (hmiss : cachesMatch store req.url = none)
    (hnet : net req.url = .ok nr)
    (h200 : nr.status = 200)
    (hbasic : nr.type = "basic") :
    (handleFetchA origin store net putFails req
        = ⟨.responded nr,
           if putFails then store
           else cacheOpenPut store DYNAMIC_CACHE req.url nr.clone, 1, 1⟩)
    ∧ (handleFetchB origin store net putFails req
        = ⟨.responded nr,
           if putFails then store
           else cacheOpenPut store STATIC_CACHE req.url nr.clone, 1, 1⟩)
    ∧ (putFails = false →
        cachesMatch (handleFetchA origin store net putFails req).store req.url
            = some nr.clone
        ∧ cachesMatch (handleFetchB origin store net putFails req).store req.url
            = some nr.clone)
    ∧ nr.clone.body = nr.body := by
  have hA : handleFetchA origin store net putFails req
      = ⟨.responded nr,
         if putFails then store
         else cacheOpenPut store DYNAMIC_CACHE req.url nr.clone, 1, 1⟩ := by
    simp [handleFetchA, hget, hsame, hmiss, hnet, h200, hbasic]
  have hB : handleFetchB origin store net putFails req
      = ⟨.responded nr,
         if putFails then store
         else cacheOpenPut store STATIC_CACHE req.url nr.clone, 1, 1⟩ := by
    simp [handleFetchB, hget, hsame, hmiss, hnet, h200, hbasic]
  refine ⟨hA, hB, fun hpf => ⟨?_, ?_⟩, rfl⟩
  · rw [hA]
    simp only [hpf, if_false]
    exact cachesMatch_openPut_self DYNAMIC_CACHE req.url nr.clone store hmiss
  · rw [hB]
    simp only [hpf, if_false]
    exact cachesMatch_openPut_self STATIC_CACHE req.url nr.clone store hmiss

/-- Witness for C4: a concrete cacheable miss against an empty store. -/
theorem cacheable_miss_stored_once_and_returned_witness :
    (handleFetchA sampleOrigin [] okNet false
        ⟨"GET", "https://app.example/data.json", "other"⟩
      = ⟨.responded sampleResponse,
         cacheOpenPut [] DYNAMIC_CACHE "https://app.example/data.json"
           sampleResponse.clone, 1, 1⟩)
    ∧ (handleFetchB sampleOrigin [] okNet false
        ⟨"GET", "https://app.example/data.json", "other"⟩
      = ⟨.responded sampleResponse,
         cacheOpenPut [] STATIC_CACHE "https://app.example/data.json"
           sampleResponse.clone, 1, 1⟩)
    ∧ (false = false →
        cachesMatch (handleFetchA sampleOrigin [] okNet false
            ⟨"GET", "https://app.example/data.json", "other"⟩).store
            "https://app.example/data.json"
          = some sampleResponse.clone
        ∧ cachesMatch (handleFetchB sampleOrigin [] okNet false
            ⟨"GET", "https://app.example/data.json", "other"⟩).store
            "https://app.example/data.json"
          = some sampleResponse.clone)
    ∧ sampleResponse.clone.body = sampleResponse.body := by
  have h := cacheable_miss_stored_once_and_returned sampleOrigin [] okNet false
    ⟨"GET", "https://app.example/data.json", "other"⟩ sampleResponse
    rfl (by decide) rfl rfl rfl rfl
  simpa using h

/-- **C6** counterexample: under Policy A, a navigation request missing from
an empty store whose network fetch fails — with './index.html' therefore also
absent — makes the `respondWith` promise resolve with `undefined`
(`respondedNone`); the original network error ("connection error") is *not*
re-thrown, contrary to the claim that the failure is propagated to the
caller. -/
theorem policyA_missing_root_fallback_not_propagated :
    (handleFetchA sampleOrigin [] offlineNet false
        ⟨"GET", "https://app.example/page", "document"⟩).outcome
      = .respondedNone
    ∧ (handleFetchA sampleOrigin [] offlineNet false
        ⟨"GET", "https://app.example/page", "document"⟩).outcome
      ≠ .errored "connection error" := by
  refine ⟨by decide, by decide⟩

/-- **C6** amended: under Policy A, for every intercepted GET same-origin
navigation request absent from the store whose network fetch fails, the
router returns the cached './index.html' entry when one is present; when that
entry is also absent, the handler resolves with no response (`undefined`), so
the request fails at the platform level but the original network error is
swallowed rather than propagated. -/
theorem policyA_navigation_fallback
    (origin : String) (store : CacheStorage)
    (net : String → Except String Response) (putFails : Bool) (req : Request)
    (e : String)
    (hget : req.method = "GET")
    (hsame : urlStartsWith req.url origin = true)
    (hmiss : cachesMatch store req.url = none)
    (hnet : net req.url = .error e)
    (hnav : req.destination = "document") :
    (∀ r, cachesMatch store "./index.html" = some r →
        (handleFetchA origin store net putFails req).outcome = .responded r)
    ∧ (cachesMatch store "./index.html" = none →
        (handleFetchA origin store net putFails req).outcome
          = .respondedNone) := by
  constructor
  · intro r hroot
    simp [handleFetchA, hget, hsame, hmiss, hnet, hnav, hroot]
  · intro hroot
    simp [handleFetchA, hget, hsame, hmiss, hnet, hnav, hroot]

/-- Witness for the amended C6: with './index.html' cached, the offline
navigation gets the cached root document. -/
theorem policyA_navigation_fallback_witness :
    (handleFetchA sampleOrigin rootStore offlineNet false
        ⟨"GET", "https://app.example/page", "document"⟩).outcome
      = .responded sampleResponse :=
  (policyA_navigation_fallback sampleOrigin rootStore offlineNet false
      ⟨"GET", "https://app.example/page", "document"⟩ "connection error"
      rfl (by decide) (by decide) rfl rfl).1 sampleResponse (by decide)

/-- **C7** counterexample: the interception guard is
`url.startsWith(origin)`, a string-prefix test on the whole URL, not a
target-origin comparison.  The URL "https://app.example.evil.net/x" has
target origin "https://app.example.evil.net", different from the serving
origin "https://app.example", yet it extends the origin string, so the
router intercepts it — here the store lookup even succeeds and the stored
entry is returned — instead of declining as the claim states. -/
theorem crossorigin_prefix_url_intercepted :
    urlOrigin "https://app.example.evil.net/x" ≠ sampleOrigin
    ∧ handleFetchA sampleOrigin
          [(STATIC_CACHE, [("https://app.example.evil.net/x", sampleResponse)])]
          offlineNet false ⟨"GET", "https://app.example.evil.net/x", "script"⟩
        ≠ ⟨.passThrough,
           [(STATIC_CACHE, [("https://app.example.evil.net/x", sampleResponse)])],
           0, 0⟩
    ∧ (handleFetchA sampleOrigin
          [(STATIC_CACHE, [("https://app.example.evil.net/x", sampleResponse)])]
          offlineNet false
          ⟨"GET", "https://app.example.evil.net/x", "script"⟩).outcome
        = .responded sampleResponse := by
  refine ⟨by decide, by decide, by decide⟩

/-- **C7** amended: the router declines to intercept — no store lookup, no
store write, no state change, the result record is the pass-through one —
exactly for requests that are non-GET or whose URL does not start with the
serving-origin string (under both policies).  Because the guard is a string
prefix test on the URL, cross-origin URLs that extend the origin string are
intercepted. -/
theorem non_get_or_nonprefix_passthrough
    (origin : String) (store : CacheStorage)
    (net : String → Except String Response) (putFails : Bool) (req : Request)
    (h : req.method ≠ "GET" ∨ urlStartsWith req.url origin = false) :
    handleFetchA origin store net putFails req = ⟨.passThrough, store, 0, 0⟩
    ∧ handleFetchB origin store net putFails req
        = ⟨.passThrough, store, 0, 0⟩ := by
  rcases h with h | h
  · constructor <;> simp [handleFetchA, handleFetchB, h]
  · by_cases hm : req.method = "GET" <;> constructor <;>
      simp [handleFetchA, handleFetchB, h, hm]

/-- Witness for the amended C7: a POST request is passed through untouched
by both policies. -/
theorem non_get_or_nonprefix_passthrough_witness :
    handleFetchA sampleOrigin sampleHitStore offlineNet false
        ⟨"POST", "https://app.example/api", "other"⟩
      = ⟨.passThrough, sampleHitStore, 0, 0⟩
    ∧ handleFetchB sampleOrigin sampleHitStore offlineNet false
        ⟨"POST", "https://app.example/api", "other"⟩
      = ⟨.passThrough, sampleHitStore, 0, 0⟩ :=
  non_get_or_nonprefix_passthrough sampleOrigin sampleHitStore offlineNet false
    ⟨"POST", "https://app.example/api", "other"⟩ (Or.inl (by decide))

/-- **C8** counterexample: under Policy A the GET_VERSION reply posts an
object holding only the `version` field — it has no `offline` and no `mode`
field, contrary to the claim that every GET_VERSION reply carries all
three. -/
theorem policyA_get_version_reply_lacks_fields :
    (messageHandlerA "GET_VERSION").reply
      = some [("version", .str CACHE_NAME_A)]
    ∧ ((messageHandlerA "GET_VERSION").reply.getD []).lookup "offline" = none
    ∧ ((messageHandlerA "GET_VERSION").reply.getD []).lookup "mode" = none := by
  refine ⟨rfl, rfl, rfl⟩

/-- **C8** amended: under Policy B, the GET_VERSION reply is the object
`{version: CACHE_NAME, offline: true, mode: "offline-first"}` — the version
field holds the module's generation-identifier string, offline is boolean,
and mode is the policy label; under Policy A the reply holds only the
version field. -/
theorem get_version_reply_fields (store : CacheStorage) :
    (messageHandlerB store "GET_VERSION").reply
      = some [("version", .str CACHE_NAME_B), ("offline", .bool true),
              ("mode", .str "offline-first")]
    ∧ (messageHandlerA "GET_VERSION").reply
      = some [("version", .str CACHE_NAME_A)] := by
  refine ⟨rfl, rfl⟩

/-- **C9** counterexample: the Policy A message listener has no CACHE_STATUS
branch, so a CACHE_STATUS command receives no reply at all under Policy A,
contrary to the claim that every CACHE_STATUS message is answered with a
`{cached, ready, mode}` object. -/
theorem policyA_cache_status_no_reply :
    (messageHandlerA "CACHE_STATUS").reply = none := by
  rfl

/-- **C9** amended: under Policy B, every CACHE_STATUS message is answered
with `{cached, ready, mode}` where cached is a boolean that is true exactly
when './index.html' is present in some cache, ready is true, and mode is the
string "offline"; under Policy A no reply is sent. -/
theorem cache_status_reply (store : CacheStorage) :
    (messageHandlerB store "CACHE_STATUS").reply
      = some [("cached", .bool (cachesMatch store "./index.html").isSome),
              ("ready", .bool true), ("mode", .str "offline")]
    ∧ ((cachesMatch store "./index.html").isSome = true
        ↔ ∃ r, cachesMatch store "./index.html" = some r)
    ∧ (messageHandlerA "CACHE_STATUS").reply = none :=
  ⟨rfl, Option.isSome_iff_exists, rfl⟩

/-- **C10**: the store lookup is `caches.match`, which searches every named
cache, not just the current generation: with the requested entry present
only in cache "v-old" — a name equal to no current identifier — both
routers still answer from it, for every network behaviour, with zero
network calls and no state change. -/
theorem lookup_not_scoped_to_current_generation :
    ("v-old" ≠ STATIC_CACHE ∧ "v-old" ≠ DYNAMIC_CACHE
      ∧ "v-old" ≠ CACHE_NAME_A ∧ "v-old" ≠ CACHE_NAME_B)
    ∧ ∀ (net : String → Except String Response) (putFails : Bool),
        handleFetchB sampleOrigin vOldStore net putFails
            ⟨"GET", "https://app.example/app.js", "script"⟩
          = ⟨.responded sampleResponse, vOldStore, 0, 0⟩
        ∧ handleFetchA sampleOrigin vOldStore net putFails
            ⟨"GET", "https://app.example/app.js", "script"⟩
          = ⟨.responded sampleResponse, vOldStore, 0, 0⟩ := by
  exact ⟨by decide, fun net putFails => ⟨rfl, rfl⟩⟩

end SW
